import Mathlib

/-!
Verification of `src/grep.py` (a command-line pattern-search utility).

The program is embedded shallowly:
* `Args` mirrors the parsed command-line namespace (`args.ignore_case`,
  `args.not_match`, `args.count`).
* The regex engine (`re`) is an external collaborator; a compiled pattern is
  modelled by `Regex`, carrying the two operations the program uses:
  `findallLen contents` models `len(regex.findall(contents))` and
  `search line` models the truthiness of `regex.search(line)`.
* The filesystem is modelled by `FS`: `read p` models
  `open(p).read()` (whole-content pass, `Except.error` = the raised
  exception's message) and `readLines p` models the separate
  line-iteration pass of `print_matching_lines` (the two passes open the
  file independently in the source, so they can fail independently).
* Printing to stdout is modelled by returning the list of printed lines;
  `main` returns an `Output` with the stdout lines, the stderr lines and
  the exit code.  The Python source only ever uses `print` (stdout) and
  `sys.exit(1)`.
-/

set_option autoImplicit false

/-- The command-line options of `src/grep.py` (argparse namespace):
`-i` (ignore-case), `-n` (not-match), `-c` (count). -/
structure Args where
  ignore_case : Bool
  not_match : Bool
  count : Bool
deriving DecidableEq, Repr

/-- A compiled pattern, as used by the program: `findallLen s` models
`len(regex.findall(s))` (number of non-overlapping matches over the whole
text) and `search l` models whether `regex.search(l)` is truthy. -/
structure Regex where
  findallLen : List Char → Nat
  search : List Char → Bool

/-- The filesystem as seen by `process_file` / `print_matching_lines`:
two independent read operations, each either yielding content or raising
an exception with a message. -/
structure FS where
  read : String → Except String (List Char)
  readLines : String → Except String (List (List Char))

/-- A directory entry for modelling `os.walk`: a plain file, or a
subdirectory whose entry list may be unlistable (scandir raises). -/
inductive Entry where
  | file (name : String)
  | dir (name : String) (listable : Bool) (entries : List Entry)

/-- What `os.path.isfile` / `os.path.isdir` report for the top-level path:
a regular file, a directory (with its tree), or neither. -/
inductive PathKind where
  | file
  | dir (listable : Bool) (entries : List Entry)
  | missing

/-- The observable outcome of a run: stdout lines, stderr lines, exit code. -/
structure Output where
  out : List String
  err : List String
  exitCode : Nat
deriving DecidableEq, Repr

/-- ASCII fragment of Python's `str.strip` whitespace set. -/
def pyWhitespace (c : Char) : Bool :=
  c = ' ' || c = '\t' || c = '\n' || c = '\r' || c = '\x0b' || c = '\x0c'

/-- Python `line.strip()` (src line 114): removes leading AND trailing
whitespace. -/
def pyStrip (s : List Char) : List Char :=
  ((s.dropWhile pyWhitespace).reverse.dropWhile pyWhitespace).reverse

/-- `handle_not_match` (src lines 66-80): with `--not-match`, prints only
when there are no matches; with `--count` additionally set it prints
`{path}: 0`, otherwise just the path. -/
def handle_not_match (file_path : String) (num_matches : Nat) (args : Args) :
    List String :=
  if num_matches = 0 then
    if args.count then [s!"{file_path}: 0"] else [file_path]
  else []

/-- `print_matching_lines` (src lines 101-116): re-opens the file, iterates
its lines with `enumerate(f, start=1)`, prints `{path}:{n}:{line.strip()}`
for each line where `regex.search(line)` is truthy; on a read failure it
prints `Error reading {path}: {e}` and returns. -/
def print_matching_lines (fs : FS) (file_path : String) (regex : Regex) :
    List String :=
  match fs.readLines file_path with
  | .ok lines =>
      ((List.enumFrom 1 lines).filter fun p => regex.search p.2).map
        fun p => s!"{file_path}:{p.1}:{String.mk (pyStrip p.2)}"
  | .error e => [s!"Error reading {file_path}: {e}"]

/-- `handle_match` (src lines 83-98): with `--count` prints
`{path}: {num_matches}` unconditionally; otherwise lists matching lines
only when `num_matches > 0`. -/
def handle_match (fs : FS) (file_path : String) (regex : Regex)
    (num_matches : Nat) (args : Args) : List String :=
  if args.count then [s!"{file_path}: {num_matches}"]
  else if 0 < num_matches then print_matching_lines fs file_path regex
  else []

/-- `process_file` (src lines 39-63): read the whole content (printing
`Cannot read file {path}: {e}` and returning on failure), compute
`num_matches = len(regex.findall(contents))`, then dispatch on
`args.not_match`. -/
def process_file (fs : FS) (file_path : String) (regex : Regex)
    (args : Args) : List String :=
  match fs.read file_path with
  | .error e => [s!"Cannot read file {file_path}: {e}"]
  | .ok contents =>
      let num_matches := regex.findallLen contents
      if args.not_match then handle_not_match file_path num_matches args
      else handle_match fs file_path regex num_matches args

/-- `os.path.join(root, file)` for the traversal (src line 32). -/
def joinPath (root name : String) : String := root ++ "/" ++ name

/-- The joined paths of the plain files directly inside a directory
(one `(root, dirs, files)` tuple of `os.walk`, src lines 30-32). -/
def filesOf (root : String) : List Entry → List String
  | [] => []
  | .file n :: rest => joinPath root n :: filesOf root rest
  | .dir _ _ _ :: rest => filesOf root rest

/-- The joined file paths contributed by the subdirectories, top-down, as
`os.walk` yields them.  Models Python's `os.walk` with its default
`onerror=None`: errors raised when listing a directory are ignored, so an
unlistable subdirectory contributes nothing and no diagnostic. -/
def walkDirs (root : String) : List Entry → List String
  | [] => []
  | .file _ :: rest => walkDirs root rest
  | .dir n l es :: rest =>
      (if l then
        filesOf (joinPath root n) es ++ walkDirs (joinPath root n) es
      else []) ++ walkDirs root rest

/-- All file paths produced by the `os.walk` loop of `main`
(src lines 30-33), top-down from `root`. -/
def osWalkFiles (root : String) (listable : Bool) (entries : List Entry) :
    List String :=
  if listable then filesOf root entries ++ walkDirs root entries else []

/-- The source's `main` (src lines 6-36); named `grep_main` here because Lean reserves `main` for an IO entry point: compile the pattern (on `re.error` print
`Invalid regular expression: {e}` and `sys.exit(1)`); then dispatch on the
path: a file is processed directly, a directory is walked and every
discovered file processed, anything else prints
`Path does not exist: {path}` and exits 1.  `compile` stands for
`re.compile` with the `re.IGNORECASE` flag derived from
`args.ignore_case` (src lines 20-22). -/
def grep_main (compile : String → Bool → Except String Regex) (kind : PathKind)
    (fs : FS) (pattern path : String) (args : Args) : Output :=
  match compile pattern args.ignore_case with
  | .error e => ⟨[s!"Invalid regular expression: {e}"], [], 1⟩
  | .ok regex =>
      match kind with
      | .file => ⟨process_file fs path regex args, [], 0⟩
      | .dir listable entries =>
          ⟨(osWalkFiles path listable entries).flatMap
              fun p => process_file fs p regex args, [], 0⟩
      | .missing => ⟨[s!"Path does not exist: {path}"], [], 1⟩

/-- Does the first list occur as a leading segment of the second?
Helper for the concrete literal matcher used to instantiate `Regex`. -/
def isPfxOf : List Char → List Char → Bool
  | [], _ => true
  | _ :: _, [] => false
  | a :: as, b :: bs => a == b && isPfxOf as bs

/-- Left-to-right scan counting non-overlapping occurrences of a literal
`pat`; the `Nat` argument is how many characters of a just-found
occurrence remain to be skipped.  Mirrors what `len(re.findall(pat, s))`
returns for a literal pattern `pat` without metacharacters. -/
def countLitAux (pat : List Char) : List Char → Nat → Nat
  | [], _ => 0
  | _ :: rest, Nat.succ k => countLitAux pat rest k
  | c :: rest, 0 =>
      if isPfxOf pat (c :: rest) && !pat.isEmpty then
        1 + countLitAux pat rest (pat.length - 1)
      else countLitAux pat rest 0

/-- `len(re.findall(pat, s))` for a nonempty literal pattern `pat`. -/
def countLit (pat s : List Char) : Nat := countLitAux pat s 0

/-- Truthiness of `re.search(pat, l)` for a literal pattern `pat`:
does `pat` occur anywhere in `l`? -/
def containsLit (pat : List Char) : List Char → Bool
  | [] => pat.isEmpty
  | c :: rest => isPfxOf pat (c :: rest) || containsLit pat rest

/-- A concrete `Regex`: the compiled form of a literal pattern (no regex
metacharacters), with Python's `findall` and `search` semantics. -/
def litRegex (pat : List Char) : Regex :=
  ⟨fun s => countLit pat s, fun l => containsLit pat l⟩

/-- Scan implementing `len(re.findall(pat, s))` for the pattern `a*`
under Python (3.7+) semantics: at each scan position the maximal run of
`a`s is matched (possibly empty); an empty match advances the position by
one; a further empty match is found at the end-of-string position.  The
`Bool` argument records whether the scan is inside an already-counted run
of `a`s.  E.g. `findall` of `a*` on `ab` yields three matches
(`a` at 0, empty at 1, empty at 2), and on the empty string one match. -/
def starAScan : Bool → List Char → Nat
  | _, [] => 1
  | inRun, c :: rest =>
      if c = 'a' then
        if inRun then starAScan true rest else 1 + starAScan true rest
      else 1 + starAScan false rest

/-- `len(re.findall(pat, s))` for the pattern `a*`. -/
def countStarA (s : List Char) : Nat := starAScan false s

/-- The compiled form of the pattern `a*`: `re.search` of `a*` always
succeeds (it matches the empty string at position 0), so `search` is
constantly true. -/
def regexStarA : Regex := ⟨countStarA, fun _ => true⟩

/-- Modelled from the spec's words "Lines are right-trimmed of trailing
line-terminator characters": removes trailing newline and carriage-return
characters only.  Stated only to compare the spec's description with what
the program emits. -/
def rtrimTerm (s : List Char) : List Char :=
  (s.reverse.dropWhile fun c => c = '\n' || c = '\r').reverse

example : countLit ['a'] ['a', 'a', 'a', '\n'] = 3 := by decide
example : countLit ['a', 'a'] ['a', 'a', 'a'] = 1 := by decide
example : countLit ['f', 'o', 'o']
    ['f', 'o', 'o', '\n', 'b', 'a', 'r', '\n', 'f', 'o', 'o', '\n'] = 2 := by
  decide
example : countStarA [] = 1 := by decide
example : countStarA ['a', 'b'] = 3 := by decide
example : countStarA ['b', 'a'] = 3 := by decide
example : countStarA ['a', 'a'] = 2 := by decide
example : pyStrip [' ', 'a', ' ', '\n'] = ['a'] := by decide
example : rtrimTerm [' ', 'a', ' ', '\n'] = [' ', 'a', ' '] := by decide


/-- A filesystem whose every file reads as the one-character content `a`
(one line, no terminator). -/
def fsA : FS := ⟨fun _ => .ok ['a'], fun _ => .ok [['a']]⟩

/-- A filesystem whose every file reads as `aaa\n` (a single line holding
three occurrences of `a`). -/
def fsAAA : FS :=
  ⟨fun _ => .ok ['a', 'a', 'a', '\n'], fun _ => .ok [['a', 'a', 'a', '\n']]⟩

/-- The spec's §8 example content `foo\nbar\nfoo\n`. -/
def fooContent : List Char :=
  ['f', 'o', 'o', '\n', 'b', 'a', 'r', '\n', 'f', 'o', 'o', '\n']

/-- The lines of `fooContent` as Python file iteration yields them. -/
def fooLines : List (List Char) :=
  [['f', 'o', 'o', '\n'], ['b', 'a', 'r', '\n'], ['f', 'o', 'o', '\n']]

/-- A filesystem whose every file reads as `foo\nbar\nfoo\n`. -/
def fsFoo : FS := ⟨fun _ => .ok fooContent, fun _ => .ok fooLines⟩

/-- An empty file: reading yields no characters and no lines. -/
def fsEmpty : FS := ⟨fun _ => .ok [], fun _ => .ok []⟩

/-- A single line ` a \n` with leading and trailing blanks around `a`. -/
def lineBlankA : List Char := [' ', 'a', ' ', '\n']

/-- A filesystem whose every file reads as the single line ` a \n`. -/
def fsBlankA : FS := ⟨fun _ => .ok lineBlankA, fun _ => .ok [lineBlankA]⟩

/-- A filesystem on which every read raises with message `boom`. -/
def fsBoom : FS := ⟨fun _ => .error "boom", fun _ => .error "boom"⟩

/-- A compile function that always succeeds with the literal matcher for
`a` (stands for `re.compile` on the pattern string `a`). -/
def compileLitA : String → Bool → Except String Regex :=
  fun _ _ => .ok (litRegex ['a'])

/-- A compile function that always fails, as `re.compile` does on the
pattern `(`  (missing closing parenthesis). -/
def compileBad : String → Bool → Except String Regex :=
  fun _ _ => .error "missing ), unterminated subpattern at position 0"

/-- C1, counterexample.  The claim says inverted count mode prints
`{path}: {matchCount}` for every scanned file regardless of the count; on
a readable file containing one match of `a` the program prints nothing at
all (`handle_not_match` only prints when the count is zero). -/
theorem inverted_count_cex :
    process_file fsA "f" (litRegex ['a']) ⟨false, true, true⟩ = []
    ∧ (litRegex ['a']).findallLen ['a'] = 1
    ∧ fsA.read "f" = .ok ['a']
    ∧ process_file fsA "f" (litRegex ['a']) ⟨false, true, true⟩ ≠ ["f: 1"] := by
  refine ⟨by decide, by decide, rfl, by decide⟩

/-- C1, amended.  In inverted count mode (`invert=true, countOnly=true`)
the program prints exactly one line `{path}: 0` for a scanned file whose
match count is zero, and prints nothing for a scanned file whose match
count is positive. -/
theorem inverted_count_zero_only (fs : FS) (file_path : String)
    (regex : Regex) (contents : List Char) (ic : Bool)
    (h : fs.read file_path = .ok contents) :
    process_file fs file_path regex ⟨ic, true, true⟩ =
      if regex.findallLen contents = 0 then [s!"{file_path}: 0"] else [] := by
  simp [process_file, h, handle_not_match]

/-- C1, witness for the amended theorem, at a zero-match file and at a
one-match file. -/
theorem inverted_count_zero_only_witness :
    (process_file fsA "f" (litRegex ['z']) ⟨false, true, true⟩ =
      if (litRegex ['z']).findallLen ['a'] = 0 then [s!"f: 0"] else [])
    ∧ (process_file fsA "f" (litRegex ['a']) ⟨false, true, true⟩ =
      if (litRegex ['a']).findallLen ['a'] = 0 then [s!"f: 0"] else []) :=
  ⟨inverted_count_zero_only fsA "f" (litRegex ['z']) ['a'] false rfl,
   inverted_count_zero_only fsA "f" (litRegex ['a']) ['a'] false rfl⟩

/-- C2.  In non-inverted count mode the program prints exactly one line
`{path}: {k}` per scanned file where `k` is the find-all match count over
the file's whole content; on the file `aaa\n` with pattern `a` it prints
`g: 3` although only one line matches, so `k` is not the number of
matching lines. -/
theorem count_mode_whole_content :
    (∀ (fs : FS) (file_path : String) (regex : Regex) (contents : List Char)
        (ic : Bool), fs.read file_path = .ok contents →
        process_file fs file_path regex ⟨ic, false, true⟩ =
          [s!"{file_path}: {regex.findallLen contents}"])
    ∧ process_file fsAAA "g" (litRegex ['a']) ⟨false, false, true⟩ = ["g: 3"]
    ∧ ([['a', 'a', 'a', '\n']].filter fun l =>
        (litRegex ['a']).search l).length = 1 := by
  refine ⟨?_, by decide, by decide⟩
  intro fs file_path regex contents ic h
  simp [process_file, h, handle_match]

/-- C2, witness: the universal part applied to the spec's §8 example
(`foo\nbar\nfoo\n`, pattern `foo`, count mode prints `p: 2`). -/
theorem count_mode_whole_content_witness :
    process_file fsFoo "p" (litRegex ['f', 'o', 'o']) ⟨false, false, true⟩
      = ["p: 2"] :=
  Eq.trans
    (count_mode_whole_content.1 fsFoo "p" (litRegex ['f', 'o', 'o'])
      fooContent false rfl)
    (by decide)

/-- Filtering on the second component commutes with `enumFrom`: the
enumeration does not change how many elements pass the filter. -/
theorem length_filter_enumFrom (f : List Char → Bool) (n : Nat)
    (ls : List (List Char)) :
    ((List.enumFrom n ls).filter fun p => f p.2).length
      = (ls.filter f).length := by
  induction ls generalizing n with
  | nil => rfl
  | cons a ls ih =>
      simp only [List.enumFrom, List.filter]
      cases h : f a <;> simp [h, ih]

/-- C3.  In default mode (`invert=false, countOnly=false`) the output for
a scanned file is: nothing when the whole-content match count is zero,
and otherwise one line `{path}:{n}:{text}` for exactly the lines where
the pattern matches, `n` the 1-based line index; each matching line
contributes exactly one output line (the output length equals the number
of matching lines). -/
theorem default_mode_lists_matching_lines :
    (∀ (fs : FS) (file_path : String) (regex : Regex) (contents : List Char)
        (lines : List (List Char)) (ic : Bool),
        fs.read file_path = .ok contents →
        fs.readLines file_path = .ok lines →
        process_file fs file_path regex ⟨ic, false, false⟩ =
          if 0 < regex.findallLen contents then
            ((List.enumFrom 1 lines).filter fun p => regex.search p.2).map
              fun p => s!"{file_path}:{p.1}:{String.mk (pyStrip p.2)}"
          else [])
    ∧ (∀ (fs : FS) (file_path : String) (regex : Regex) (contents : List Char)
        (lines : List (List Char)) (ic : Bool),
        fs.read file_path = .ok contents →
        fs.readLines file_path = .ok lines →
        0 < regex.findallLen contents →
        (process_file fs file_path regex ⟨ic, false, false⟩).length
          = (lines.filter fun l => regex.search l).length) := by
  constructor
  · intro fs file_path regex contents lines ic h1 h2
    simp [process_file, h1, handle_match, print_matching_lines, h2]
  · intro fs file_path regex contents lines ic h1 h2 hpos
    simp [process_file, h1, handle_match, print_matching_lines, h2, hpos,
      length_filter_enumFrom]

/-- C3, witness: the spec's §8 example, content `foo\nbar\nfoo\n` and
pattern `foo`, prints exactly `p:1:foo` and `p:3:foo`. -/
theorem default_mode_lists_matching_lines_witness :
    process_file fsFoo "p" (litRegex ['f', 'o', 'o']) ⟨false, false, false⟩
      = ["p:1:foo", "p:3:foo"] :=
  Eq.trans
    (default_mode_lists_matching_lines.1 fsFoo "p" (litRegex ['f', 'o', 'o'])
      fooContent fooLines false rfl rfl)
    (by decide)

/-- C4, counterexample.  The claim says every valid pattern yields
`matchCount = 0` on an empty file; the pattern `a*` is valid and its
find-all on empty content yields one (empty) match, so count mode prints
`e: 1`, not `e: 0`. -/
theorem empty_file_count_cex :
    countStarA [] = 1
    ∧ fsEmpty.read "e" = .ok []
    ∧ process_file fsEmpty "e" regexStarA ⟨false, false, true⟩ = ["e: 1"]
    ∧ process_file fsEmpty "e" regexStarA ⟨false, false, true⟩ ≠ ["e: 0"] := by
  refine ⟨by decide, rfl, by decide, by decide⟩

/-- C4, amended.  For an empty input file the line-listing output is
empty for every pattern; the computed `matchCount` is zero exactly for
the patterns whose find-all yields no match on empty content (count mode
then prints `{path}: 0`) — a pattern matching the empty string, such as
`a*`, instead yields `matchCount = 1`. -/
theorem empty_file_amended (fs : FS) (file_path : String) (regex : Regex)
    (ic : Bool) (h1 : fs.read file_path = .ok [])
    (h2 : fs.readLines file_path = .ok []) :
    process_file fs file_path regex ⟨ic, false, false⟩ = []
    ∧ (regex.findallLen [] = 0 →
        process_file fs file_path regex ⟨ic, false, true⟩ =
          [s!"{file_path}: {(0 : Nat)}"]) := by
  constructor
  · simp [process_file, h1, handle_match, print_matching_lines, h2]
  · intro h0
    simp [process_file, h1, handle_match, h0]

/-- C4, witness for the amended theorem, with the literal pattern `b`
(which has no match in empty content). -/
theorem empty_file_amended_witness :
    process_file fsEmpty "e" (litRegex ['b']) ⟨false, false, false⟩ = []
    ∧ ((litRegex ['b']).findallLen [] = 0 →
        process_file fsEmpty "e" (litRegex ['b']) ⟨false, false, true⟩ =
          [s!"e: {(0 : Nat)}"]) :=
  empty_file_amended fsEmpty "e" (litRegex ['b']) false rfl rfl

/-- C5, counterexample.  The claim says the emitted text is the file line
right-trimmed of trailing line terminators only; on the matching line
` a \n` the program emits `f:1:a` (the source uses `line.strip()`),
whereas right-trimming only the terminator would keep the blanks and give
`f:1: a `. -/
theorem emitted_line_trim_cex :
    print_matching_lines fsBlankA "f" (litRegex ['a']) = ["f:1:a"]
    ∧ String.mk (rtrimTerm lineBlankA) = " a "
    ∧ print_matching_lines fsBlankA "f" (litRegex ['a'])
        ≠ [s!"f:1:{String.mk (rtrimTerm lineBlankA)}"] := by
  refine ⟨by decide, by decide, by decide⟩

/-- C5, amended.  Each line emitted in line-listing mode carries as text
the file line stripped of leading AND trailing whitespace (Python
`str.strip`), not merely right-trimmed of line terminators. -/
theorem emitted_line_is_stripped (fs : FS) (file_path : String)
    (regex : Regex) (lines : List (List Char)) (out : String)
    (h : fs.readLines file_path = .ok lines)
    (hm : out ∈ print_matching_lines fs file_path regex) :
    ∃ p : Nat × List Char, p ∈ List.enumFrom 1 lines
      ∧ regex.search p.2 = true
      ∧ out = s!"{file_path}:{p.1}:{String.mk (pyStrip p.2)}" := by
  simp only [print_matching_lines, h, List.mem_map, List.mem_filter] at hm
  obtain ⟨p, ⟨hp, hs⟩, he⟩ := hm
  exact ⟨p, hp, hs, he.symm⟩

/-- C5, witness for the amended theorem: the line ` a \n` is emitted as
`f:1:a`, i.e. stripped on both ends. -/
theorem emitted_line_is_stripped_witness :
    ∃ p : Nat × List Char, p ∈ List.enumFrom 1 [lineBlankA]
      ∧ (litRegex ['a']).search p.2 = true
      ∧ "f:1:a" = s!"f:{p.1}:{String.mk (pyStrip p.2)}" :=
  emitted_line_is_stripped fsBlankA "f" (litRegex ['a']) [lineBlankA]
    "f:1:a" rfl (by decide)

/-- C6, counterexample.  The claim says the per-file read diagnostic goes
to standard error; the source uses `print`, so on an unreadable file the
diagnostic `Cannot read file f: boom` appears on standard output and
standard error stays empty (while the run still exits 0). -/
theorem unreadable_diag_stream_cex :
    (grep_main compileLitA .file fsBoom "a" "f" ⟨false, false, false⟩).out
        = ["Cannot read file f: boom"]
    ∧ (grep_main compileLitA .file fsBoom "a" "f" ⟨false, false, false⟩).err
        = []
    ∧ "Cannot read file f: boom"
        ∉ (grep_main compileLitA .file fsBoom "a" "f" ⟨false, false, false⟩).err
    ∧ (grep_main compileLitA .file fsBoom "a" "f"
        ⟨false, false, false⟩).exitCode = 0 := by
  refine ⟨by decide, by decide, by decide, by decide⟩

/-- C6, amended.  When a file cannot be read the program prints the
diagnostic `Cannot read file {path}: {cause}` to standard output (not
standard error), continues with the next walked file, and the run still
exits with code 0. -/
theorem unreadable_diag_stdout_continue
    (compile : String → Bool → Except String Regex) (fs : FS)
    (pattern path p e : String) (rest : List String) (args : Args)
    (regex : Regex) (entries : List Entry) (listable : Bool)
    (hc : compile pattern args.ignore_case = .ok regex)
    (hw : osWalkFiles path listable entries = p :: rest)
    (hr : fs.read p = .error e) :
    (grep_main compile (.dir listable entries) fs pattern path args).out
        = s!"Cannot read file {p}: {e}"
            :: rest.flatMap (fun q => process_file fs q regex args)
    ∧ (grep_main compile (.dir listable entries) fs pattern path args).err = []
    ∧ (grep_main compile (.dir listable entries) fs pattern path
        args).exitCode = 0 := by
  refine ⟨?_, ?_, ?_⟩ <;>
    simp [grep_main, hc, hw, process_file, hr]

/-- C6, witness: a two-file directory whose first file is unreadable; the
diagnostic lands on stdout and the second file is still processed. -/
theorem unreadable_diag_stdout_continue_witness :
    (grep_main compileLitA (.dir true [Entry.file "u", Entry.file "v"])
        (⟨fun q => if q = "d/u" then .error "boom" else .ok ['a'],
          fun _ => .ok [['a']]⟩ : FS) "a" "d" ⟨false, false, true⟩).out
        = "Cannot read file d/u: boom"
            :: List.flatMap ["d/v"] (fun q =>
                process_file
                  (⟨fun q2 => if q2 = "d/u" then .error "boom" else .ok ['a'],
                    fun _ => .ok [['a']]⟩ : FS) q (litRegex ['a'])
                  ⟨false, false, true⟩)
    ∧ (grep_main compileLitA (.dir true [Entry.file "u", Entry.file "v"])
        (⟨fun q => if q = "d/u" then .error "boom" else .ok ['a'],
          fun _ => .ok [['a']]⟩ : FS) "a" "d" ⟨false, false, true⟩).err = []
    ∧ (grep_main compileLitA (.dir true [Entry.file "u", Entry.file "v"])
        (⟨fun q => if q = "d/u" then .error "boom" else .ok ['a'],
          fun _ => .ok [['a']]⟩ : FS) "a" "d" ⟨false, false, true⟩).exitCode
        = 0 :=
  unreadable_diag_stdout_continue compileLitA
    (⟨fun q => if q = "d/u" then .error "boom" else .ok ['a'],
      fun _ => .ok [['a']]⟩ : FS) "a" "d" "d/u" "boom" ["d/v"]
    ⟨false, false, true⟩ (litRegex ['a'])
    [Entry.file "u", Entry.file "v"] true rfl
    (by simp [osWalkFiles, filesOf, walkDirs, joinPath]) rfl

/-- C7.  If the pattern fails to compile, the run prints exactly the
diagnostic `Invalid regular expression: {detail}` and exits with code 1;
the result is the same for every filesystem and every kind of path, so no
file is opened or read before termination. -/
theorem invalid_pattern_aborts
    (compile : String → Bool → Except String Regex) (kind : PathKind)
    (fs : FS) (pattern path e : String) (args : Args)
    (hc : compile pattern args.ignore_case = .error e) :
    grep_main compile kind fs pattern path args
      = ⟨[s!"Invalid regular expression: {e}"], [], 1⟩ := by
  simp [grep_main, hc]

/-- C7, witness: the unbalanced-parenthesis pattern `(` with two different
filesystems, both giving the same diagnostic-only result. -/
theorem invalid_pattern_aborts_witness :
    grep_main compileBad .file fsFoo "(" "f" ⟨false, false, false⟩
      = ⟨["Invalid regular expression: missing ), unterminated subpattern " ++
          "at position 0"], [], 1⟩
    ∧ grep_main compileBad .missing fsBoom "(" "f" ⟨false, false, false⟩
      = ⟨["Invalid regular expression: missing ), unterminated subpattern " ++
          "at position 0"], [], 1⟩ :=
  ⟨invalid_pattern_aborts compileBad .file fsFoo "(" "f"
      "missing ), unterminated subpattern at position 0"
      ⟨false, false, false⟩ rfl,
   invalid_pattern_aborts compileBad .missing fsBoom "(" "f"
      "missing ), unterminated subpattern at position 0"
      ⟨false, false, false⟩ rfl⟩

/-- C8.  If the supplied path is neither an existing file nor an existing
directory, the run exits with code 1; its entire output is the single
diagnostic `Path does not exist: {path}` — no file output is produced. -/
theorem missing_path_exits_one
    (compile : String → Bool → Except String Regex) (fs : FS)
    (pattern path : String) (args : Args) (regex : Regex)
    (hc : compile pattern args.ignore_case = .ok regex) :
    grep_main compile .missing fs pattern path args
      = ⟨[s!"Path does not exist: {path}"], [], 1⟩ := by
  simp [grep_main, hc]

/-- C8, witness. -/
theorem missing_path_exits_one_witness :
    grep_main compileLitA .missing fsFoo "a" "nope" ⟨false, false, false⟩
      = ⟨["Path does not exist: nope"], [], 1⟩ :=
  missing_path_exits_one compileLitA fsFoo "a" "nope" ⟨false, false, false⟩
    (litRegex ['a']) rfl

/-- The two read-failure diagnostics of the source have different shapes:
`Error reading ...` (second pass, src line 116) never coincides with
`Cannot read file ...` (first pass, src line 54), whatever the path and
cause. -/
theorem error_reading_format_differs (q d : String) :
    s!"Error reading {q}: {d}" ≠ s!"Cannot read file {q}: {d}" := by
  intro h
  have e1 : (s!"Error reading {q}: {d}").data.head? = some 'E' := rfl
  rw [h] at e1
  have e2 : (s!"Cannot read file {q}: {d}").data.head? = some 'C' := rfl
  rw [e2] at e1
  exact absurd e1 (by decide)

/-- C9.  If the whole-content pass succeeds with a positive match count
but the separate line-listing pass fails to read the file, the program
prints `Error reading {path}: {detail}` — a format different from
`Cannot read file {path}: {detail}` — and returns normally: a run on that
file still exits with code 0 and writes nothing to standard error. -/
theorem second_pass_failure_reported
    (fs : FS) (file_path e : String) (regex : Regex) (contents : List Char)
    (ic : Bool)
    (h1 : fs.read file_path = .ok contents)
    (hpos : 0 < regex.findallLen contents)
    (h2 : fs.readLines file_path = .error e) :
    process_file fs file_path regex ⟨ic, false, false⟩
        = [s!"Error reading {file_path}: {e}"]
    ∧ (∀ q d : String,
        (s!"Error reading {q}: {d}") ≠ (s!"Cannot read file {q}: {d}"))
    ∧ (∀ (compile : String → Bool → Except String Regex) (pattern : String),
        compile pattern ic = .ok regex →
        grep_main compile .file fs pattern file_path ⟨ic, false, false⟩
          = ⟨[s!"Error reading {file_path}: {e}"], [], 0⟩) := by
  refine ⟨?_, error_reading_format_differs, ?_⟩
  · simp [process_file, h1, handle_match, hpos, print_matching_lines, h2]
  · intro compile pattern hc
    simp [grep_main, hc, process_file, h1, handle_match, hpos,
      print_matching_lines, h2]

/-- C9, witness: a file whose content pass yields `a` (one match) but
whose line pass raises `boom`. -/
theorem second_pass_failure_reported_witness :
    process_file (⟨fun _ => .ok ['a'], fun _ => .error "boom"⟩ : FS) "f"
        (litRegex ['a']) ⟨false, false, false⟩
        = [s!"Error reading f: boom"]
    ∧ (∀ q d : String,
        (s!"Error reading {q}: {d}") ≠ (s!"Cannot read file {q}: {d}"))
    ∧ (∀ (compile : String → Bool → Except String Regex) (pattern : String),
        compile pattern false = .ok (litRegex ['a']) →
        grep_main compile .file
            (⟨fun _ => .ok ['a'], fun _ => .error "boom"⟩ : FS) pattern "f"
            ⟨false, false, false⟩
          = ⟨[s!"Error reading f: boom"], [], 0⟩) :=
  second_pass_failure_reported
    (⟨fun _ => .ok ['a'], fun _ => .error "boom"⟩ : FS) "f" "boom"
    (litRegex ['a']) ['a'] false rfl (by decide) rfl

/-- `filesOf` distributes over appended entry lists. -/
theorem filesOf_append (root : String) (xs ys : List Entry) :
    filesOf root (xs ++ ys) = filesOf root xs ++ filesOf root ys := by
  induction xs with
  | nil => rfl
  | cons e rest ih => cases e <;> simp [filesOf, ih]

/-- `walkDirs` distributes over appended entry lists. -/
theorem walkDirs_append (root : String) (xs ys : List Entry) :
    walkDirs root (xs ++ ys) = walkDirs root xs ++ walkDirs root ys := by
  induction xs with
  | nil => simp [walkDirs]
  | cons e rest ih => cases e <;> simp [walkDirs, ih]

/-- C10.  An unlistable subdirectory (directory listing fails below the
top level) is skipped silently: the run is identical to the run on the
same tree with that subdirectory removed — same stdout, nothing ever on
stderr, same exit code — and the entries before and after it are still
traversed. -/
theorem unlistable_subdir_skipped
    (compile : String → Bool → Except String Regex) (fs : FS)
    (pattern path n : String) (sub : List Entry) (pre post : List Entry)
    (args : Args) :
    grep_main compile (.dir true (pre ++ Entry.dir n false sub :: post)) fs
        pattern path args
      = grep_main compile (.dir true (pre ++ post)) fs pattern path args
    ∧ osWalkFiles path true (pre ++ Entry.dir n false sub :: post)
        = osWalkFiles path true (pre ++ post)
    ∧ (grep_main compile (.dir true (pre ++ Entry.dir n false sub :: post)) fs
        pattern path args).err = [] := by
  have hfiles : filesOf path (pre ++ Entry.dir n false sub :: post)
      = filesOf path (pre ++ post) := by
    simp [filesOf_append, filesOf]
  have hdirs : walkDirs path (pre ++ Entry.dir n false sub :: post)
      = walkDirs path (pre ++ post) := by
    simp [walkDirs_append, walkDirs]
  have hwalk : osWalkFiles path true (pre ++ Entry.dir n false sub :: post)
      = osWalkFiles path true (pre ++ post) := by
    simp [osWalkFiles, hfiles, hdirs]
  refine ⟨?_, hwalk, ?_⟩
  · simp only [grep_main]
    cases compile pattern args.ignore_case <;> simp [hwalk]
  · simp only [grep_main]
    cases compile pattern args.ignore_case <;> simp
